import Mathlib

/-!
Shallow embedding of the surrealex query-builder core (Rust) in Lean 4,
together with theorems settling the specification claims about it.

The embedded pieces, translated from the source files:
  * `src/enums.rs`        — `Condition` AST, its `and`/`or` combinators and
                            `Display` rendering; `ReturnClause`; `ExplainClause`;
                            `Direction`; `Sort`; `SelectionFields`.
  * `src/structs.rs`      — the older `OrderTerm` variant and its `Display`.
  * `src/types/select.rs` — the current `OrderTerm`, `OrderOptions`,
                            `SelectData`, `SelectField`, `GraphStep`,
                            `GraphTraversalParams`.
  * `src/types/create.rs` / `src/types/delete.rs` — `CreateData`, `DeleteData`.
  * `src/internal_macros.rs` — the `push_clause!` clause separator.
  * `src/builders/select.rs` — the `FromReady` configuration calls and `build`.
  * `src/builders/create.rs` / `src/builders/delete.rs` — their setters and `build`.
  * `src/versioning/select.rs` — the `SurrealV1` `graph_traverse` override.
  * `src/traits.rs`       — `duration_to_string` (SurrealQL duration codec).

Rust strings are Lean `String`s, `Vec<T>` is `List T`, `Option<T>` is
`Option T`, `u64`/`u128` are `Nat` (all quantities involved are non-negative
and no arithmetic here can overflow `u128` on the modelled inputs).
-/

namespace Surrealex

/-- Rust `Vec::join` of a list of strings with a separator
(used by the source via `.collect::<Vec<_>>().join(sep)`). -/
def joinSep (sep : String) : List String → String
  | [] => ""
  | [a] => a
  | a :: b :: rest => a ++ sep ++ joinSep sep (b :: rest)

/-- `enums.rs` — `Direction`. -/
inductive Direction
  | Out
  | In
deriving DecidableEq, Repr

/-- `Display for Direction`. -/
def Direction.render : Direction → String
  | .Out => "->"
  | .In => "<-"

/-- `enums.rs` — the `Condition` predicate AST. -/
inductive Condition
  | Simple (s : String)
  | And (conds : List Condition)
  | Or (conds : List Condition)
deriving Repr

/-- `Condition::and` — flattens into an existing `And` node, otherwise wraps
both operands in a new two-child `And` (`enums.rs:102-110`). -/
def Condition.and : Condition → Condition → Condition
  | .And conds, cond => .And (conds ++ [cond])
  | self, cond => .And [self, cond]

/-- `Condition::or` — always wraps in a new two-child `Or` (`enums.rs:112-114`). -/
def Condition.or (self cond : Condition) : Condition :=
  .Or [self, cond]

mutual

/-- `Display for Condition` (`enums.rs:117-143`): a `Simple` leaf is its raw
text; a composite is parenthesized and its children joined by the connective. -/
def Condition.render : Condition → String
  | .Simple s => s
  | .And conds => "(" ++ Condition.renderJoin " AND " conds ++ ")"
  | .Or conds => "(" ++ Condition.renderJoin " OR " conds ++ ")"

/-- The `enumerate`-with-separator loop inside `Display for Condition`:
the separator is written before every child except the first. -/
def Condition.renderJoin (sep : String) : List Condition → String
  | [] => ""
  | [c] => Condition.render c
  | c :: c2 :: rest => Condition.render c ++ sep ++ Condition.renderJoin sep (c2 :: rest)

end

/-- `enums.rs` — `Sort` (named `SortOrder` here because `Sort` is a Lean keyword). -/
inductive SortOrder
  | Asc
  | Desc
deriving DecidableEq, Repr

/-- `Display for Sort`. -/
def SortOrder.render : SortOrder → String
  | .Asc => "ASC"
  | .Desc => "DESC"

/-- `types/select.rs` — `OrderOptions { numeric, collate, direction }`. -/
structure OrderOptions where
  numeric : Bool := false
  collate : Bool := false
  direction : SortOrder := .Asc
deriving DecidableEq, Repr

/-- `types/select.rs` — `OrderTerm { field, direction, numeric, collate }`. -/
structure OrderTerm where
  field : String
  direction : SortOrder := .Asc
  numeric : Bool := false
  collate : Bool := false
deriving Repr

/-- `Display for OrderTerm` in `types/select.rs:84-96`: the conjunction of both
modifiers is tested first, so both set renders `COLLATE NUMERIC`. -/
def OrderTerm.render (t : OrderTerm) : String :=
  if t.numeric && t.collate then
    t.field ++ " COLLATE NUMERIC " ++ t.direction.render
  else if t.numeric then
    t.field ++ " NUMERIC " ++ t.direction.render
  else if t.collate then
    t.field ++ " COLLATE " ++ t.direction.render
  else
    t.field ++ " " ++ t.direction.render

/-- `structs.rs` — the older `OrderTerm` variant (its direction field is
named `order` in the source). -/
structure StructsOrderTerm where
  field : String
  order : SortOrder := .Asc
  numeric : Bool := false
  collate : Bool := false
deriving Repr

/-- `Display for OrderTerm` in `structs.rs:31-43`: the `numeric`-only test
comes first, so the `numeric && collate` branch is unreachable. -/
def StructsOrderTerm.render (t : StructsOrderTerm) : String :=
  if t.numeric then
    t.field ++ " NUMERIC " ++ t.order.render
  else if t.collate then
    t.field ++ " COLLATE " ++ t.order.render
  else if t.numeric && t.collate then
    t.field ++ " COLLATE NUMERIC " ++ t.order.render
  else
    t.field ++ " " ++ t.order.render

/-- `enums.rs` — `ReturnClause`. -/
inductive ReturnClause
  | None
  | Before
  | After
  | Diff
  | Params (params : List String)
  | Value (field : String)
deriving Repr

/-- `Display for ReturnClause` (`enums.rs:33-47`). -/
def ReturnClause.render : ReturnClause → String
  | .None => "NONE"
  | .Before => "BEFORE"
  | .After => "AFTER"
  | .Diff => "DIFF"
  | .Params params => joinSep ", " params
  | .Value field => "VALUE " ++ field

/-- `enums.rs` — `ExplainClause`. -/
inductive ExplainClause
  | Simple
  | Full
deriving DecidableEq, Repr

/-- `Display for ExplainClause`. -/
def ExplainClause.render : ExplainClause → String
  | .Simple => "EXPLAIN"
  | .Full => "EXPLAIN FULL"

/-- `types/select.rs` — `SelectField { name, alias }` (the source field `alias`
is a Lean keyword, embedded as `alias_`). -/
structure SelectField where
  name : String
  alias_ : Option String := none
deriving Repr

/-- The alias-or-bare-name rendering of one projected field, used both by
`FromReady::build` and by the traversal renderers:
`format!("{} AS {}", name, alias)` when an alias is present. -/
def SelectField.render (f : SelectField) : String :=
  match f.alias_ with
  | some a => f.name ++ " AS " ++ a
  | none => f.name

/-- `enums.rs` — `SelectionFields`. -/
inductive SelectionFields
  | All
  | Fields (fields : List SelectField)
deriving Repr

/-- `types/select.rs` — `GraphStep { direction, table }`. -/
structure GraphStep where
  direction : Direction
  table : String
deriving Repr

/-- `Display for GraphStep`: arrow followed by the table name. -/
def GraphStep.render (s : GraphStep) : String :=
  s.direction.render ++ s.table

/-- `types/select.rs` — `GraphTraversalParams { steps, alias, fields }`. -/
structure GraphTraversalParams where
  steps : List GraphStep
  alias_ : Option String := none
  fields : SelectionFields := .All
deriving Repr

/-- `types/select.rs` — `SelectData`, the pending state of a SELECT statement. -/
structure SelectData where
  fields : List SelectField := []
  table : Option String := none
  limit : Option Nat := none
  only : Bool := false
  where_clause : List Condition := []
  fetch_fields : List String := []
  order_by : List String := []
  start_at : Option Nat := none
  explain : Option ExplainClause := none
deriving Repr

/-- `types/create.rs` — `SetField { field, value }`. -/
structure SetField where
  field : String
  value : String
deriving Repr

/-- `types/create.rs` — `ContentMode`: raw `CONTENT` expression or a `SET`
assignment list. -/
inductive ContentMode
  | Content (value : String)
  | Set (fields : List SetField)
deriving Repr

/-- `types/create.rs` — `CreateData`, the pending state of a CREATE statement. -/
structure CreateData where
  targets : String := ""
  only : Bool := false
  content : Option ContentMode := none
  return_clause : Option ReturnClause := none
  timeout : Option String := none
deriving Repr

/-- `types/delete.rs` — `DeleteData`, the pending state of a DELETE statement. -/
structure DeleteData where
  targets : String := ""
  where_clause : List Condition := []
  only : Bool := false
  return_clause : Option ReturnClause := none
  timeout : Option String := none
  explain : Option ExplainClause := none
deriving Repr

/-- Rust `String::ends_with(' ')` on the destination buffer
(`internal_macros.rs`), modelled on the character list. -/
def endsWithSpace (s : String) : Bool :=
  match s.data.getLast? with
  | some c => c == ' '
  | none => false

/-- Rust `str::starts_with(',')` on the clause text (`internal_macros.rs`),
modelled on the character list. -/
def startsWithComma (s : String) : Bool :=
  match s.data with
  | c :: _ => c == ','
  | [] => false

/-- `internal_macros.rs` — the `push_clause!` macro: append the clause text,
inserting a single separating space when the buffer is non-empty, does not
already end in a space, and the clause does not start with a comma. -/
def push_clause (dest s : String) : String :=
  if !dest.data.isEmpty && !endsWithSpace dest && !startsWithComma s then
    dest ++ " " ++ s
  else
    dest ++ s

/-! ### SELECT builder (`builders/select.rs`, `FromReady`) -/

/-- `FromReady::where` — appends a condition to the accumulating WHERE list. -/
def SelectData.whereCond (d : SelectData) (c : Condition) : SelectData :=
  { d with where_clause := d.where_clause ++ [c] }

/-- `FromReady::order_by` — renders an `OrderTerm` from the field and options
and appends it to the accumulating order list. -/
def SelectData.orderBy (d : SelectData) (field : String) (opt : OrderOptions) : SelectData :=
  { d with order_by := d.order_by ++
      [(OrderTerm.mk field opt.direction opt.numeric opt.collate).render] }

/-- `FromReady::order_random` — replaces the whole order list with the single
literal entry `RAND()`. -/
def SelectData.orderRandom (d : SelectData) : SelectData :=
  { d with order_by := ["RAND()"] }

/-- `FromReady::limit` — singleton slot, last write wins. -/
def SelectData.setLimit (d : SelectData) (n : Nat) : SelectData :=
  { d with limit := some n }

/-- `FromReady::start_at` — singleton slot, last write wins. -/
def SelectData.setStartAt (d : SelectData) (n : Nat) : SelectData :=
  { d with start_at := some n }

/-- `FromReady::fetch` — extends the accumulating fetch-field list. -/
def SelectData.fetch (d : SelectData) (fields : List String) : SelectData :=
  { d with fetch_fields := d.fetch_fields ++ fields }

/-- `FromReady::build` (`builders/select.rs:124-180`): emits the clauses in the
fixed grammar order SELECT → projection → FROM [ONLY] → WHERE → ORDER BY →
LIMIT → START AT → FETCH, each present clause separated by `push_clause!`. -/
def SelectData.build (d : SelectData) : String :=
  let query := push_clause "" "SELECT"
  let fieldsText := joinSep ", " (d.fields.map SelectField.render)
  let query := push_clause query fieldsText
  let query :=
    match d.table with
    | some table =>
        push_clause query ("FROM" ++ (if d.only then " ONLY" else "") ++ " " ++ table)
    | none => query
  let query :=
    if d.where_clause.isEmpty then query
    else push_clause query ("WHERE " ++ joinSep " AND " (d.where_clause.map Condition.render))
  let query :=
    if d.order_by.isEmpty then query
    else push_clause query ("ORDER BY " ++ joinSep ", " d.order_by)
  let query :=
    match d.limit with
    | some limit => push_clause query ("LIMIT " ++ toString limit)
    | none => query
  let query :=
    match d.start_at with
    | some offset => push_clause query ("START AT " ++ toString offset)
    | none => query
  let query :=
    if d.fetch_fields.isEmpty then query
    else push_clause query ("FETCH " ++ joinSep ", " d.fetch_fields)
  query

/-! ### CREATE builder (`builders/create.rs`) -/

/-- `CreateBuilder::only`. -/
def CreateData.setOnly (d : CreateData) : CreateData :=
  { d with only := true }

/-- `CreateBuilder::content` — replaces any previous `CONTENT` or `SET` mode. -/
def CreateData.setContent (d : CreateData) (value : String) : CreateData :=
  { d with content := some (.Content value) }

/-- `CreateBuilder::set` — accumulates into an existing `SET` list, otherwise
replaces the mode with a fresh one-element `SET` list. -/
def CreateData.setAssign (d : CreateData) (field value : String) : CreateData :=
  match d.content with
  | some (.Set fields) => { d with content := some (.Set (fields ++ [⟨field, value⟩])) }
  | _ => { d with content := some (.Set [⟨field, value⟩]) }

/-- `CreateBuilder::return_params` — singleton RETURN slot. -/
def CreateData.returnParams (d : CreateData) (params : List String) : CreateData :=
  { d with return_clause := some (.Params params) }

/-- `CreateBuilder::timeout` — singleton TIMEOUT slot, last write wins. -/
def CreateData.setTimeout (d : CreateData) (duration : String) : CreateData :=
  { d with timeout := some duration }

/-- `CreateBuilder::build` (`builders/create.rs:138-174`): CREATE [ONLY] target
→ CONTENT / SET → RETURN → TIMEOUT. -/
def CreateData.build (d : CreateData) : String :=
  let query :=
    if d.only then push_clause "" ("CREATE ONLY " ++ d.targets)
    else push_clause "" ("CREATE " ++ d.targets)
  let query :=
    match d.content with
    | some (.Content value) => push_clause query ("CONTENT " ++ value)
    | some (.Set fields) =>
        push_clause query
          ("SET " ++ joinSep ", " (fields.map fun f => f.field ++ " = " ++ f.value))
    | none => query
  let query :=
    match d.return_clause with
    | some rc => push_clause query ("RETURN " ++ rc.render)
    | none => query
  let query :=
    match d.timeout with
    | some duration => push_clause query ("TIMEOUT " ++ duration)
    | none => query
  query

/-! ### DELETE builder (`builders/delete.rs`) -/

/-- `DeleteBuilder::only` — switches `DELETE FROM` to `DELETE ONLY`. -/
def DeleteData.setOnly (d : DeleteData) : DeleteData :=
  { d with only := true }

/-- `DeleteBuilder::where` — appends a WHERE condition; multiple calls are
joined with AND at build time. -/
def DeleteData.whereCond (d : DeleteData) (c : Condition) : DeleteData :=
  { d with where_clause := d.where_clause ++ [c] }

/-- `DeleteBuilder::return_params` — singleton RETURN slot. -/
def DeleteData.returnParams (d : DeleteData) (params : List String) : DeleteData :=
  { d with return_clause := some (.Params params) }

/-- `DeleteBuilder::timeout` — singleton TIMEOUT slot, last write wins. -/
def DeleteData.setTimeout (d : DeleteData) (duration : String) : DeleteData :=
  { d with timeout := some duration }

/-- `DeleteBuilder::explain`. -/
def DeleteData.setExplain (d : DeleteData) : DeleteData :=
  { d with explain := some .Simple }

/-- `DeleteBuilder::build` (`builders/delete.rs:90-125`): DELETE FROM/ONLY
target → WHERE → RETURN → TIMEOUT → EXPLAIN. -/
def DeleteData.build (d : DeleteData) : String :=
  let query :=
    if d.only then push_clause "" ("DELETE ONLY " ++ d.targets)
    else push_clause "" ("DELETE FROM " ++ d.targets)
  let query :=
    if d.where_clause.isEmpty then query
    else push_clause query ("WHERE " ++ joinSep " AND " (d.where_clause.map Condition.render))
  let query :=
    match d.return_clause with
    | some rc => push_clause query ("RETURN " ++ rc.render)
    | none => query
  let query :=
    match d.timeout with
    | some duration => push_clause query ("TIMEOUT " ++ duration)
    | none => query
  let query :=
    match d.explain with
    | some mode => push_clause query mode.render
    | none => query
  query

/-! ### Version dispatch (`versioning/select.rs`) -/

/-- The shared traversal path prefix: the concatenation of the steps'
arrow+table texts (`steps.iter().map(to_string).collect::<String>()`). -/
def traversalPath (steps : List GraphStep) : String :=
  String.join (steps.map GraphStep.render)

/-- The `SurrealV1` override of `graph_traverse`
(`versioning/select.rs:52-79`): whole-entity projection pushes one
`<path>.*` field carrying the traversal-level alias; an explicit field list
expands into one projected field per requested field, each carrying the
shared path prefix and its own per-field alias. -/
def graphTraverseV1 (d : SelectData) (p : GraphTraversalParams) : SelectData :=
  let path := traversalPath p.steps
  match p.fields with
  | .All =>
      { d with fields := d.fields ++ [⟨path ++ ".*", p.alias_⟩] }
  | .Fields selectFields =>
      { d with fields := d.fields ++
          selectFields.map fun f => ⟨path ++ "." ++ f.name, f.alias_⟩ }

/-! ### Duration codec (`traits.rs`) -/

/-- `traits.rs` — the `UNITS` table, largest to smallest, in nanoseconds. -/
def UNITS : List (Nat × String) :=
  [ (365 * 86400 * 1000000000, "y"),
    (7 * 86400 * 1000000000, "w"),
    (86400 * 1000000000, "d"),
    (3600 * 1000000000, "h"),
    (60 * 1000000000, "m"),
    (1000000000, "s"),
    (1000000, "ms"),
    (1000, "us"),
    (1, "ns") ]

/-- The unit loop of `duration_to_string`: for each unit, if the remaining
quantity reaches it, emit `<integer><suffix>` and keep the remainder. -/
def durationLoop : List (Nat × String) → Nat → String → String
  | [], _, result => result
  | (unitNanos, suffix) :: rest, nanos, result =>
      if unitNanos ≤ nanos then
        durationLoop rest (nanos % unitNanos) (result ++ toString (nanos / unitNanos) ++ suffix)
      else
        durationLoop rest nanos result

/-- `traits.rs:107-125` — `duration_to_string`: zero renders as `0ns`,
otherwise greedy largest-unit-first decomposition. -/
def duration_to_string (nanos : Nat) : String :=
  if nanos = 0 then "0ns" else durationLoop UNITS nanos ""

/-- The greedy per-unit coefficients of a quantity, largest unit first:
each unit's integer coefficient together with its suffix, recursing on the
remainder. -/
def greedyCoeffs : List (Nat × String) → Nat → List (Nat × String)
  | [], _ => []
  | (unitNanos, suffix) :: rest, nanos =>
      (nanos / unitNanos, suffix) :: greedyCoeffs rest (nanos % unitNanos)

/-- The spec-side reading of the duration encoding: one `<integer><suffix>`
token per unit with a non-zero greedy coefficient, concatenated in unit order
with no separators. -/
def unitTokens (l : List (Nat × String)) (nanos : Nat) : List String :=
  ((greedyCoeffs l nanos).filter fun p => p.1 != 0).map fun p => toString p.1 ++ p.2

/-- Separator-free concatenation of a token list. -/
def concatAll (l : List String) : String :=
  l.foldr (· ++ ·) ""

/-- One configuration call on the SELECT builder (`builders/select.rs`,
`FromReady`): a where condition, an order term, a limit, a start-at offset,
or a fetch list, each with its arguments. -/
inductive SelectOp
  | whereOp (c : Condition)
  | orderOp (field : String) (opt : OrderOptions)
  | limitOp (n : Nat)
  | startOp (n : Nat)
  | fetchOp (fs : List String)

/-- Applies one configuration call to the pending SELECT state. -/
def applySelectOp (d : SelectData) : SelectOp → SelectData
  | .whereOp c => d.whereCond c
  | .orderOp field opt => d.orderBy field opt
  | .limitOp n => d.setLimit n
  | .startOp n => d.setStartAt n
  | .fetchOp fs => d.fetch fs

/-- Applies a sequence of configuration calls left to right, as a caller
chaining builder methods does. -/
def applySelectOps (d : SelectData) (l : List SelectOp) : SelectData :=
  l.foldl applySelectOp d

/-! ### Helper lemmas -/

theorem renderJoin_eq_joinSep (sep : String) (l : List Condition) :
    Condition.renderJoin sep l = joinSep sep (l.map Condition.render) := by
  induction l with
  | nil => rfl
  | cons c rest ih =>
    cases rest with
    | nil => rfl
    | cons c2 rest2 =>
      simp only [Condition.renderJoin, joinSep, List.map_cons, ih]

theorem data_isEmpty_append_false (s t : String) (h : s.data ≠ []) :
    (s ++ t).data.isEmpty = false := by
  rw [String.data_append]
  cases hs : s.data with
  | nil => exact absurd hs h
  | cons c rest => rfl

theorem startsWithComma_append (s t : String) (h : s.data ≠ []) :
    startsWithComma (s ++ t) = startsWithComma s := by
  unfold startsWithComma
  rw [String.data_append]
  cases hs : s.data with
  | nil => exact absurd hs h
  | cons c rest => rfl

theorem endsWithSpace_append (s t : String) (h : t.data ≠ []) :
    endsWithSpace (s ++ t) = endsWithSpace t := by
  unfold endsWithSpace
  rw [String.data_append, List.getLast?_append]
  cases ht : t.data.getLast? with
  | none => exact absurd (List.getLast?_eq_none_iff.mp ht) h
  | some c => rfl

theorem push_clause_sep (dest s : String) (h1 : dest.data ≠ [])
    (h2 : endsWithSpace dest = false) (h3 : startsWithComma s = false) :
    push_clause dest s = dest ++ " " ++ s := by
  unfold push_clause
  have h1' : dest.data.isEmpty = false := by
    cases hd : dest.data with
    | nil => exact absurd hd h1
    | cons c rest => rfl
  rw [h1', h2, h3]
  rfl

theorem durationLoop_eq (l : List (Nat × String)) (hl : ∀ p ∈ l, 0 < p.1) :
    ∀ (n : Nat) (acc : String),
      durationLoop l n acc = acc ++ concatAll (unitTokens l n) := by
  induction l with
  | nil =>
    intro n acc
    simp [durationLoop, unitTokens, greedyCoeffs, concatAll]
  | cons hd tl ih =>
    obtain ⟨u, s⟩ := hd
    have hu : 0 < u := hl (u, s) (List.mem_cons_self _ _)
    have htl : ∀ p ∈ tl, 0 < p.1 := fun p hp => hl p (List.mem_cons_of_mem _ hp)
    intro n acc
    by_cases h : u ≤ n
    · have hdiv : (n / u != 0) = true := by
        have h1 : 1 ≤ n / u := (Nat.one_le_div_iff hu).mpr h
        simp
        omega
      rw [durationLoop, if_pos h, ih htl]
      simp [unitTokens, greedyCoeffs, concatAll, hdiv, String.append_assoc]
    · have hlt : n < u := Nat.lt_of_not_le h
      have hdiv : (n / u != 0) = false := by
        simp [Nat.div_eq_of_lt hlt]
      have hmod : n % u = n := Nat.mod_eq_of_lt hlt
      rw [durationLoop, if_neg h, ih htl]
      simp [unitTokens, greedyCoeffs, hdiv, hmod]

/-! ### Claim theorems -/

/-- C4: duration encoding is greedy largest-unit-first decomposition — for
every non-negative duration the emitted text is the concatenation, largest
unit down to nanosecond, of `<integer><suffix>` for each unit with a non-zero
greedy coefficient and nothing for zero coefficients, with no separators; the
zero duration encodes as exactly `0ns`; 3661 seconds encodes as `1h1m1s`,
1500 milliseconds as `1s500ms`. Units out of order or with zero coefficient
never appear, since the right-hand side filters zero coefficients from the
fixed descending unit table. -/
theorem duration_encoding_greedy :
    (∀ n, duration_to_string n =
        if n = 0 then "0ns" else concatAll (unitTokens UNITS n)) ∧
    duration_to_string (3661 * 1000000000) = "1h1m1s" ∧
    duration_to_string 0 = "0ns" ∧
    duration_to_string (1500 * 1000000) = "1s500ms" := by
  refine ⟨fun n => ?_, by rfl, by rfl, by rfl⟩
  unfold duration_to_string
  by_cases h : n = 0
  · simp [h]
  · rw [if_neg h, if_neg h, durationLoop_eq UNITS (by decide)]
    rfl

/-- C2: the current `OrderTerm` rendering (`types/select.rs`) emits the field,
then the modifiers with `COLLATE` before `NUMERIC`, then the direction; the
example term renders as `score NUMERIC DESC`; the direction defaults to `Asc`.
The older `structs.rs` rendering, however, drops `COLLATE` when both modifiers
are set: its `numeric && collate` branch is dead code because the
`numeric`-only branch is tested first, so `{x, Asc, numeric, collate}` renders
as `x NUMERIC ASC` instead of the claimed `x COLLATE NUMERIC ASC`. -/
theorem order_term_render_modifiers :
    (∀ f d, (OrderTerm.mk f d true true).render = f ++ " COLLATE NUMERIC " ++ d.render) ∧
    (OrderTerm.mk "score" .Desc true false).render = "score NUMERIC DESC" ∧
    (∀ f, ({ field := f } : OrderTerm).direction = SortOrder.Asc) ∧
    (StructsOrderTerm.mk "x" .Asc true true).render = "x NUMERIC ASC" :=
  ⟨fun _ _ => rfl, rfl, fun _ => rfl, rfl⟩

/-- C3: `and` flattens into an existing `And` node (appending to its child
list) and otherwise wraps both operands in a new two-child `And`, while `or`
always wraps in a new two-child `Or`; consequently, on simple conditions,
`a.and(b).and(c)` renders with one parenthesis pair and `a.or(b).or(c)`
renders nested with two. -/
theorem condition_combinator_asymmetry :
    (∀ l c, (Condition.And l).and c = Condition.And (l ++ [c])) ∧
    (∀ s c, (Condition.Simple s).and c = Condition.And [.Simple s, c]) ∧
    (∀ l c, (Condition.Or l).and c = Condition.And [.Or l, c]) ∧
    (∀ a c, a.or c = Condition.Or [a, c]) ∧
    (∀ sa sb sc, (((Condition.Simple sa).and (.Simple sb)).and (.Simple sc)).render
        = "(" ++ sa ++ " AND " ++ sb ++ " AND " ++ sc ++ ")") ∧
    (∀ sa sb sc, (((Condition.Simple sa).or (.Simple sb)).or (.Simple sc)).render
        = "((" ++ sa ++ " OR " ++ sb ++ ") OR " ++ sc ++ ")") := by
  refine ⟨fun _ _ => rfl, fun _ _ => rfl, fun _ _ => rfl, fun _ _ => rfl,
    fun sa sb sc => ?_, fun sa sb sc => ?_⟩
  · simp [Condition.and, Condition.render, Condition.renderJoin, String.append_assoc]
  · simp [Condition.or, Condition.render, Condition.renderJoin, String.append_assoc]
    rfl

/-- C6: a `Simple` leaf renders verbatim; an `And`/`Or` composite renders as
an opening parenthesis, the children's renderings joined by the connective,
and a closing parenthesis — always parenthesized; the nested example renders
as `(a = 1 AND (b = 2 OR c = 3))`. -/
theorem condition_render_spec :
    (∀ s, (Condition.Simple s).render = s) ∧
    (∀ l, (Condition.And l).render = "(" ++ joinSep " AND " (l.map Condition.render) ++ ")") ∧
    (∀ l, (Condition.Or l).render = "(" ++ joinSep " OR " (l.map Condition.render) ++ ")") ∧
    (Condition.And [.Simple "a = 1", .Or [.Simple "b = 2", .Simple "c = 3"]]).render
      = "(a = 1 AND (b = 2 OR c = 3))" := by
  refine ⟨fun s => rfl, fun l => ?_, fun l => ?_, by rfl⟩ <;>
    simp [Condition.render, renderJoin_eq_joinSep]

/-- C5: the V1 (non-destructuring) traversal expansion with an explicit field
list of N fields pushes N separate projected fields, one per requested field,
each made of the shared path prefix, a dot, the field name, and that field's
own alias, in the caller-specified order; the concrete steps
`[Out friends, In posts]` with fields `[name, id]` yield
`->friends<-posts.name` and `->friends<-posts.id` in that order. -/
theorem v1_traversal_field_expansion :
    (∀ (d : SelectData) (steps : List GraphStep) (a : Option String) (fs : List SelectField),
      (graphTraverseV1 d ⟨steps, a, .Fields fs⟩).fields =
        d.fields ++ fs.map fun f => ⟨traversalPath steps ++ "." ++ f.name, f.alias_⟩) ∧
    (graphTraverseV1 {} ⟨[⟨.Out, "friends"⟩, ⟨.In, "posts"⟩], none,
        .Fields [⟨"name", none⟩, ⟨"id", none⟩]⟩).fields =
      [⟨"->friends<-posts.name", none⟩, ⟨"->friends<-posts.id", none⟩] :=
  ⟨fun _ _ _ _ => rfl, rfl⟩

/-- C10: in the V1 expansion with an explicit field list the traversal-level
alias is discarded entirely — the result does not depend on it and the
appended fields carry exactly the per-field aliases; with the whole-entity
(`All`) projection the traversal-level alias is kept on the single projected
field. -/
theorem v1_traversal_alias_policy :
    (∀ (d : SelectData) (steps : List GraphStep) (a₁ a₂ : Option String)
        (fs : List SelectField),
      graphTraverseV1 d ⟨steps, a₁, .Fields fs⟩ = graphTraverseV1 d ⟨steps, a₂, .Fields fs⟩) ∧
    (∀ (d : SelectData) (steps : List GraphStep) (a : Option String) (fs : List SelectField),
      (graphTraverseV1 d ⟨steps, a, .Fields fs⟩).fields.map SelectField.alias_ =
        d.fields.map SelectField.alias_ ++ fs.map SelectField.alias_) ∧
    (∀ (d : SelectData) (steps : List GraphStep) (a : Option String),
      (graphTraverseV1 d ⟨steps, a, .All⟩).fields =
        d.fields ++ [⟨traversalPath steps ++ ".*", a⟩]) := by
  refine ⟨fun _ _ _ _ _ => rfl, fun d steps a fs => ?_, fun _ _ _ => rfl⟩
  simp [graphTraverseV1]

/-- C9: `order_random` replaces the whole accumulated order list with the
single literal entry `RAND()`, discarding previous explicit terms; an
`order_by` call made afterwards appends, so the output then contains
`ORDER BY RAND(), <term>` with both present. -/
theorem order_random_policy :
    (∀ d, (SelectData.orderRandom d).order_by = ["RAND()"]) ∧
    (∀ d f o, (SelectData.orderBy (SelectData.orderRandom d) f o).order_by =
        ["RAND()", (OrderTerm.mk f o.direction o.numeric o.collate).render]) ∧
    SelectData.build (SelectData.orderRandom
        (SelectData.orderBy { fields := [⟨"id", none⟩], table := some "t" } "name"
          ⟨false, false, .Asc⟩)) =
      "SELECT id FROM t ORDER BY RAND()" ∧
    SelectData.build (SelectData.orderBy (SelectData.orderRandom
        { fields := [⟨"id", none⟩], table := some "t" }) "name" ⟨false, false, .Asc⟩) =
      "SELECT id FROM t ORDER BY RAND(), name ASC" :=
  ⟨fun _ => rfl, fun _ _ _ => rfl, by rfl, by rfl⟩

/-- C7 counterexample: setting the CREATE timeout with `1m` and then `1ms`
yields `CREATE person TIMEOUT 1ms` — an output in which the first value `1m`
does occur (as an infix of the rendered text), refuting the claim that the
first value appears nowhere in the output. -/
theorem singleton_timeout_counterexample :
    CreateData.build (CreateData.setTimeout
        (CreateData.setTimeout { targets := "person" } "1m") "1ms") =
      "CREATE person TIMEOUT 1ms" ∧
    List.IsInfix "1m".data ("CREATE person TIMEOUT 1ms").data :=
  ⟨rfl, by decide⟩

/-- C7 (amended): setting a singleton clause twice leaves exactly the state
reached by setting only the second value — the first value has no effect on
the output (though its text can still occur as a substring of the remaining
output); setting an accumulating clause twice retains both values, rendered
at the top level as `WHERE c1 AND c2`, joined by `AND` with no parentheses
around the top-level group. -/
theorem singleton_vs_accumulating_clauses :
    (∀ (d : CreateData) (t1 t2 : String),
      CreateData.setTimeout (CreateData.setTimeout d t1) t2 = CreateData.setTimeout d t2) ∧
    (∀ (d : DeleteData) (c1 c2 : Condition),
      (DeleteData.whereCond (DeleteData.whereCond d c1) c2).where_clause =
        d.where_clause ++ [c1, c2]) ∧
    (∀ (c1 c2 : Condition),
      DeleteData.build (DeleteData.whereCond
          (DeleteData.whereCond { targets := "users" } c1) c2) =
        "DELETE FROM users WHERE " ++ c1.render ++ " AND " ++ c2.render) := by
  refine ⟨fun _ _ _ => rfl, fun d c1 c2 => by simp [DeleteData.whereCond], fun c1 c2 => ?_⟩
  have h3 : startsWithComma ("WHERE " ++ (c1.render ++ " AND " ++ c2.render)) = false := by
    rw [startsWithComma_append _ _ (by decide)]
    rfl
  calc DeleteData.build (DeleteData.whereCond
          (DeleteData.whereCond { targets := "users" } c1) c2)
      = push_clause "DELETE FROM users" ("WHERE " ++ (c1.render ++ " AND " ++ c2.render)) := rfl
    _ = "DELETE FROM users" ++ " " ++ ("WHERE " ++ (c1.render ++ " AND " ++ c2.render)) :=
        push_clause_sep _ _ (by decide) (by decide) h3
    _ = "DELETE FROM users WHERE " ++ c1.render ++ " AND " ++ c2.render := by
        simp only [String.append_assoc]
        rfl

/-- C8: combining the single-result `ONLY` modifier with the multi-result
`RETURN <params>` clause is accepted, and `build` (a total function) renders
both the `ONLY` keyword and the `RETURN` clause in the output, for every
target (with a well-formed, non-empty target text) and every parameter
list — no validation rejects or omits either clause. -/
theorem only_with_return_params_renders (t : String) (ps : List String)
    (h1 : t.data ≠ []) (h2 : endsWithSpace t = false) :
    DeleteData.build { targets := t, only := true, return_clause := some (.Params ps) } =
      "DELETE ONLY " ++ t ++ " RETURN " ++ joinSep ", " ps := by
  calc DeleteData.build { targets := t, only := true, return_clause := some (.Params ps) }
      = push_clause ("DELETE ONLY " ++ t) ("RETURN " ++ joinSep ", " ps) := rfl
    _ = ("DELETE ONLY " ++ t) ++ " " ++ ("RETURN " ++ joinSep ", " ps) := by
        refine push_clause_sep _ _ ?_ ?_ ?_
        · rw [String.data_append]
          simp
        · rw [endsWithSpace_append _ _ h1]
          exact h2
        · rw [startsWithComma_append _ _ (by decide)]
          rfl
    _ = "DELETE ONLY " ++ t ++ " RETURN " ++ joinSep ", " ps := by
        simp only [String.append_assoc]
        rfl

/-- C8 witness: the concrete target `users` with return parameters
`id, name`. -/
theorem only_with_return_params_witness :
    DeleteData.build { targets := "users", only := true, return_clause := some (.Params ["id", "name"]) } =
      "DELETE ONLY " ++ "users" ++ " RETURN " ++ joinSep ", " ["id", "name"] :=
  only_with_return_params_renders "users" ["id", "name"] (by decide) (by decide)

/-- C1: clause-order invariance — for a fixed set of clause configurations on
a SELECT statement (a where condition, an order term, a limit, a start-at
offset, and a fetch list, each with fixed arguments), applying them in any
permutation of the calls yields the identical `build` output; the clause
order in the output comes only from the statement's fixed grammar order. -/
theorem select_clause_order_invariance
    (c : Condition) (f : String) (o : OrderOptions) (n m : Nat) (fs : List String)
    (d : SelectData) (l : List SelectOp)
    (hp : l.Perm [.whereOp c, .orderOp f o, .limitOp n, .startOp m, .fetchOp fs]) :
    (applySelectOps d l).build =
      (applySelectOps d
        [.whereOp c, .orderOp f o, .limitOp n, .startOp m, .fetchOp fs]).build := by
  unfold applySelectOps
  refine congrArg SelectData.build ?_
  refine (List.Perm.foldl_eq' hp.symm ?_ d).symm
  intro x hx y hy z
  simp only [List.mem_cons, List.not_mem_nil, or_false] at hx hy
  rcases hx with hx | hx | hx | hx | hx <;> rcases hy with hy | hy | hy | hy | hy <;>
    subst hx <;> subst hy <;> rfl

/-- C1 witness: swapping the order of the `where` and `order_by` calls on a
concrete SELECT builder yields the same built query. -/
theorem select_clause_order_invariance_witness :
    (applySelectOps { fields := [⟨"*", none⟩], table := some "person" }
        [.orderOp "age" ⟨false, false, .Asc⟩, .whereOp (.Simple "age > 18"),
         .limitOp 10, .startOp 5, .fetchOp ["author"]]).build =
      (applySelectOps { fields := [⟨"*", none⟩], table := some "person" }
        [.whereOp (.Simple "age > 18"), .orderOp "age" ⟨false, false, .Asc⟩,
         .limitOp 10, .startOp 5, .fetchOp ["author"]]).build :=
  select_clause_order_invariance (.Simple "age > 18") "age" ⟨false, false, .Asc⟩
    10 5 ["author"] _ _ (List.Perm.swap _ _ _)

end Surrealex
